import Mathlib

/-!
# Verification of the domo-phoenix configuration builder

A shallow embedding of `src/chart/chart.ts` (class `PhoenixChart`): row
normalization (`transformData`), the configuration document builder
(`_toPhoenixConfig`), palette synthesis (`_createPalette`), serialization
(`_createConfigString`) and the stateful session operations (`update`,
`setChartProperties`, `resetColorPalette`).

JavaScript objects are modelled as association lists preserving key-insertion
order; a key that may be absent, explicitly `null`, or bound to a value is
modelled by `JField`.  Scalar cell values are modelled by `Value`.  The
exception thrown by dereferencing an `undefined` parameter is modelled by
`JsErr.typeError`; methods that can throw return the state as left behind by
the partially-executed method body together with an `Except` outcome.
-/

/-- A scalar JavaScript value as it appears in a data cell. -/
inductive Value where
  | int (n : Int)
  | str (s : String)
  | bool (b : Bool)
  | null
deriving Repr, DecidableEq

/-- A row of `PhoenixChartData.rows`: either an ordered sequence (canonical
form) or a keyed mapping, whose association list is kept in the object's
key-insertion order. -/
inductive Row where
  | arr (cells : List Value)
  | obj (kvs : List (String × Value))
deriving Repr, DecidableEq

/-- The own enumerable values of a row in `for (const key in row)` order:
for a keyed mapping this is key-insertion order, for an array it is index
order (ascending). -/
def Row.ownValues : Row → List Value
  | .arr cells => cells
  | .obj kvs => kvs.map Prod.snd

/-- `transformData(rows)` from `chart.ts`: each row is rebuilt by pushing
`row[key]` for every own enumerable `key` of that row, in the row's own
enumeration order.  The declared columns are never consulted. -/
def transformData (rows : List Row) : List Row :=
  rows.map fun row => Row.arr ((row.ownValues).foldl (fun acc v => acc ++ [v]) [])

/-- The inline normalization guard of the constructor and of `update`: if
`rows[0]` is not an array (which includes the empty-rows case, where
`rows[0]` is `undefined`), the rows pass through `transformData`; otherwise
the row list is returned untouched. -/
def normalizeRows (rows : List Row) : List Row :=
  match rows.head? with
  | some (Row.arr _) => rows
  | _ => transformData rows

/-- One column descriptor of `PhoenixChartData.columns`. -/
structure Column where
  name : String
  type : String
  mapping : String
deriving Repr, DecidableEq

/-- `PhoenixChartData`: declared columns plus the row list. -/
structure PhoenixChartData where
  columns : List Column
  rows : List Row
deriving Repr, DecidableEq

/-- One entry of `colorRanges` inside a `PhoenixChartPalette`. -/
structure ColorRange where
  name : String
  values : List String
deriving Repr, DecidableEq

/-- One entry of `colorRules` inside a `PhoenixChartPalette`. -/
structure ColorRule where
  min : Int
  max : Int
  values : List (List Int)
deriving Repr, DecidableEq

/-- The engine palette shape produced by `_createPalette`. -/
structure PhoenixChartPalette where
  colorRanges : List ColorRange
  colorRules : List ColorRule
deriving Repr, DecidableEq

/-- `_createPalette(colors)` from `chart.ts`: one named range holding each
color with its first character stripped (`substring(1)`), and one rule
`min = 1, max = colors.length` whose values are the pairs `[0, index]`
produced by mapping over `colors` with the element index. -/
def _createPalette (colors : List String) : PhoenixChartPalette :=
  { colorRanges := [
      { name := "CustomPalette"
        values := colors.map fun color => color.drop 1 } ]
    colorRules := [
      { min := 1
        max := (colors.length : Int)
        values := colors.mapIdx fun index _color => [(0 : Int), (index : Int)] } ] }

theorem foldl_push_eq_append (vs acc : List Value) :
    vs.foldl (fun a v => a ++ [v]) acc = acc ++ vs := by
  induction vs generalizing acc with
  | nil => simp
  | cons v vs ih => simp [List.foldl_cons, ih]

theorem transformData_eq_map_ownValues (rows : List Row) :
    transformData rows = rows.map fun r => Row.arr r.ownValues := by
  unfold transformData
  refine List.map_congr_left fun r _ => ?_
  rw [foldl_push_eq_append]
  simp

theorem mapIdx_const_arg (g : Nat → β) (xs : List α) :
    (xs.mapIdx fun i _ => g i) = (List.range xs.length).map g := by
  induction xs generalizing g with
  | nil => simp
  | cons x xs ih =>
      rw [List.mapIdx_cons, List.length_cons, List.range_succ_eq_map, List.map_cons,
        List.map_map]
      exact congrArg (g 0 :: ·) (ih fun i => g (i + 1))

/-- Modelled from the spec: the chart-kind enum `PHOENIX_CHART_TYPE`
(`src/enums/phoenix-chart-type.ts`, not present under `src/`) is a closed
enum of chart-type tags, of which a fixed subset are map kinds and the rest
are graph kinds.  Representative tags of both classes are modelled. -/
inductive PHOENIX_CHART_TYPE where
  | BAR
  | LINE
  | PIE
  | MAP_WORLD
  | MAP_STATE
deriving Repr, DecidableEq

/-- The enum tag string of a modelled chart type. -/
def PHOENIX_CHART_TYPE.tag : PHOENIX_CHART_TYPE → String
  | .BAR => "badge_vert_bar"
  | .LINE => "badge_line"
  | .PIE => "badge_pie"
  | .MAP_WORLD => "map_world"
  | .MAP_STATE => "map_state"

/-- Modelled from the spec: `_isMap` from `./map-utils` (not present under
`src/`) is the pure, total, constant-time classification of a chart kind
against the fixed map-kind subset of the enum. -/
def _isMap : PHOENIX_CHART_TYPE → Bool
  | .MAP_WORLD => true
  | .MAP_STATE => true
  | _ => false

/-- Modelled from the spec: a geographic map definition payload, returned by
the external lookup collaborator; its internal format is out of the spec's
scope, so it is modelled as an opaque tagged payload. -/
structure MapDefinition where
  payload : String
deriving Repr, DecidableEq

/-- Modelled from the spec: `_getMapDefinition` from `./map-utils` (not
present under `src/`) is a pure lookup table from a map chart-type to a
static map definition payload. -/
def _getMapDefinition (type : PHOENIX_CHART_TYPE) : MapDefinition :=
  { payload := type.tag }

/-- A JavaScript object field that is either absent (the key was never set,
or was removed with `delete`), explicitly `null`, or bound to a value. -/
inductive JField (α : Type) where
  | absent
  | jnull
  | val (a : α)
deriving Repr, DecidableEq

/-- Whether the key is present on the object (a `null` binding is present;
only `delete`d / never-set keys are not). -/
def JField.present : JField α → Bool
  | .absent => false
  | _ => true

/-- A property-override map (`PropertyOverridesMap`): override name to
override value, in key-insertion order. -/
def PropertyOverridesMap := List (String × String)
deriving instance Repr, DecidableEq for PropertyOverridesMap

/-- The merged options record held by a session (`this._options`): after the
constructor's spread-merge every field of `DEFAULT_OPTIONS` is bound, with
`colors : null` modelled as `none`, while `properties` may be absent. -/
structure PhoenixChartOptions where
  height : Int
  width : Int
  animate : Bool
  colors : Option (List String)
  properties : Option PropertyOverridesMap
deriving Repr, DecidableEq

/-- `DEFAULT_OPTIONS` from `chart.ts`. -/
def DEFAULT_OPTIONS : PhoenixChartOptions :=
  { height := 400, width := 500, animate := true, colors := none, properties := none }

/-- The `{ type: col.type }` metadata entry of the datasource block. -/
structure TypeEntry where
  type : String
deriving Repr, DecidableEq

/-- The `datasources.default.data` block of the configuration document. -/
structure DatasourceData where
  datasource : String
  metadata : List TypeEntry
  mappings : List String
  columns : List String
  rows : List Row
  numRows : Nat
  numColumns : Nat
deriving Repr, DecidableEq

/-- The `datasources.default` block of the configuration document. -/
structure Datasource where
  type : String
  data : DatasourceData
deriving Repr, DecidableEq

/-- The `components.graph` sub-configuration. -/
structure GraphComponent where
  type : String
  badgetype : PHOENIX_CHART_TYPE
  datasource : String
  columnFormats : List (String × Value)
  overrides : PropertyOverridesMap
deriving Repr, DecidableEq

/-- The `components.map` sub-configuration. -/
structure MapComponent where
  type : String
  badgetype : PHOENIX_CHART_TYPE
  mapdef : String
  datasource : String
  columnFormats : List (String × Value)
  overrides : PropertyOverridesMap
deriving Repr, DecidableEq

/-- The `components` block: each sub-configuration key may be absent,
`null`, or populated. -/
structure Components where
  graph : JField GraphComponent
  map : JField MapComponent
deriving Repr, DecidableEq

/-- The configuration document (`PhoenixChartConfig`).  `maps` and `palette`
use `JField` because the builder sets them to `null`, `delete`s them, or
omits them depending on the chart kind and options. -/
structure PhoenixChartConfig where
  datasources : Datasource
  components : Components
  maps : JField MapDefinition
  conditionalFormats : List Value
  locale : String
  version : String
  palette : JField PhoenixChartPalette
deriving Repr, DecidableEq

/-- `_toPhoenixConfig(type, data, options)` from `chart.ts`: build the
document with both candidate sub-configurations (the one not matching the
classifier's verdict set to `null`), then `delete` the mismatched component
key — and, for graph kinds, the `maps` key — and finally attach `palette`
only when `options.colors` is truthy (`null` is falsy; any array, including
the empty array, is truthy). -/
def _toPhoenixConfig (type : PHOENIX_CHART_TYPE) (data : PhoenixChartData)
    (options : PhoenixChartOptions) : PhoenixChartConfig :=
  let config : PhoenixChartConfig :=
    { datasources :=
        { type := "ordered-column-list"
          data :=
            { datasource := "default"
              metadata := data.columns.map fun col => { type := col.type }
              mappings := data.columns.map fun col => col.mapping
              columns := data.columns.map fun col => col.name
              rows := data.rows
              numRows := data.rows.length
              numColumns := data.columns.length } }
      components :=
        { graph :=
            if !(_isMap type) then
              JField.val
                { type := "graph"
                  badgetype := type
                  datasource := "default"
                  columnFormats := []
                  overrides := options.properties.getD [] }
            else JField.jnull
          map :=
            if _isMap type then
              JField.val
                { type := "map"
                  badgetype := type
                  mapdef := "map"
                  datasource := "default"
                  columnFormats := []
                  overrides := options.properties.getD [] }
            else JField.jnull }
      maps := if _isMap type then JField.val (_getMapDefinition type) else JField.jnull
      conditionalFormats := []
      locale := "en-US"
      version := "6"
      palette := JField.absent }
  let config :=
    if _isMap type then
      { config with components := { config.components with graph := JField.absent } }
    else
      { config with
        maps := JField.absent
        components := { config.components with map := JField.absent } }
  match options.colors with
  | some colors => { config with palette := JField.val (_createPalette colors) }
  | none => config

/-- A JSON document, as produced by `JSON.stringify` on the configuration
object: object keys are kept in insertion order, absent keys do not appear. -/
inductive Json where
  | null
  | bool (b : Bool)
  | num (n : Int)
  | str (s : String)
  | arr (elems : List Json)
  | obj (kvs : List (String × Json))

mutual

/-- Serialize a JSON document the way `JSON.stringify` does (no added
whitespace; string escaping is not needed for the identifier-like strings
of a configuration document). -/
def Json.render : Json → String
  | .null => "null"
  | .bool b => if b then "true" else "false"
  | .num n => toString n
  | .str s => "\"" ++ s ++ "\""
  | .arr elems => "[" ++ Json.renderElems elems ++ "]"
  | .obj kvs => "\x7b" ++ Json.renderMembers kvs ++ "\x7d"

/-- Comma-separated serialization of array elements. -/
def Json.renderElems : List Json → String
  | [] => ""
  | [j] => Json.render j
  | j :: rest => Json.render j ++ "," ++ Json.renderElems rest

/-- Comma-separated serialization of object members. -/
def Json.renderMembers : List (String × Json) → String
  | [] => ""
  | [(k, j)] => "\"" ++ k ++ "\":" ++ Json.render j
  | (k, j) :: rest => "\"" ++ k ++ "\":" ++ Json.render j ++ "," ++ Json.renderMembers rest

end

/-- JSON form of a scalar value. -/
def Value.toJson : Value → Json
  | .int n => .num n
  | .str s => .str s
  | .bool b => .bool b
  | .null => .null

/-- JSON form of a row. -/
def Row.toJson : Row → Json
  | .arr cells => .arr (cells.map Value.toJson)
  | .obj kvs => .obj (kvs.map fun kv => (kv.1, kv.2.toJson))

/-- The object members contributed by a possibly-absent field: an absent key
contributes nothing, a `null` key contributes `"k":null`, a bound key its
serialized value. -/
def JField.members (k : String) (f : JField α) (g : α → Json) : List (String × Json) :=
  match f with
  | .absent => []
  | .jnull => [(k, Json.null)]
  | .val a => [(k, g a)]

/-- JSON form of a property-override map. -/
def PropertyOverridesMap.toJson (p : PropertyOverridesMap) : Json :=
  Json.obj ((p : List (String × String)).map fun kv => (kv.1, Json.str kv.2))

/-- JSON form of the `components.graph` sub-configuration, members in the
source literal's order. -/
def GraphComponent.toJson (g : GraphComponent) : Json :=
  .obj
    [ ("type", .str g.type)
    , ("badgetype", .str g.badgetype.tag)
    , ("datasource", .str g.datasource)
    , ("columnFormats", .obj (g.columnFormats.map fun kv => (kv.1, kv.2.toJson)))
    , ("overrides", g.overrides.toJson) ]

/-- JSON form of the `components.map` sub-configuration, members in the
source literal's order. -/
def MapComponent.toJson (m : MapComponent) : Json :=
  .obj
    [ ("type", .str m.type)
    , ("badgetype", .str m.badgetype.tag)
    , ("mapdef", .str m.mapdef)
    , ("datasource", .str m.datasource)
    , ("columnFormats", .obj (m.columnFormats.map fun kv => (kv.1, kv.2.toJson)))
    , ("overrides", m.overrides.toJson) ]

/-- JSON form of the modelled map definition payload. -/
def MapDefinition.toJson (d : MapDefinition) : Json :=
  .obj [("payload", .str d.payload)]

/-- JSON form of a palette. -/
def PhoenixChartPalette.toJson (p : PhoenixChartPalette) : Json :=
  .obj
    [ ("colorRanges", .arr (p.colorRanges.map fun r =>
        .obj [("name", .str r.name), ("values", .arr (r.values.map Json.str))]))
    , ("colorRules", .arr (p.colorRules.map fun r =>
        .obj
          [ ("min", .num r.min)
          , ("max", .num r.max)
          , ("values", .arr (r.values.map fun pair => .arr (pair.map Json.num))) ])) ]

/-- JSON form of the whole configuration document, members in construction
order: the keys of the object literal, `palette` (assigned after the
literal) last, and `delete`d keys absent. -/
def PhoenixChartConfig.toJson (c : PhoenixChartConfig) : Json :=
  .obj
    ([ ("datasources", Json.obj
        [ ("default", .obj
            [ ("type", .str c.datasources.type)
            , ("data", .obj
                [ ("datasource", .str c.datasources.data.datasource)
                , ("metadata", .arr (c.datasources.data.metadata.map fun m =>
                    .obj [("type", .str m.type)]))
                , ("mappings", .arr (c.datasources.data.mappings.map Json.str))
                , ("columns", .arr (c.datasources.data.columns.map Json.str))
                , ("rows", .arr (c.datasources.data.rows.map Row.toJson))
                , ("numRows", .num (c.datasources.data.numRows : Int))
                , ("numColumns", .num (c.datasources.data.numColumns : Int)) ]) ]) ])
     , ("components", Json.obj
        (JField.members "graph" c.components.graph GraphComponent.toJson
          ++ JField.members "map" c.components.map MapComponent.toJson)) ]
      ++ JField.members "maps" c.maps MapDefinition.toJson
      ++ [ ("conditionalFormats", .arr (c.conditionalFormats.map Value.toJson))
         , ("locale", .str c.locale)
         , ("version", .str c.version) ]
      ++ JField.members "palette" c.palette PhoenixChartPalette.toJson)

/-- `_createConfigString(type, data, options)` from `chart.ts`: build the
configuration document and `JSON.stringify` it. -/
def _createConfigString (type : PHOENIX_CHART_TYPE) (data : PhoenixChartData)
    (options : PhoenixChartOptions) : String :=
  Json.render (PhoenixChartConfig.toJson (_toPhoenixConfig type data options))

/-- The JavaScript exception a method can throw; `update` called without an
options argument throws a `TypeError` reading `colors` of `undefined`. -/
inductive JsErr where
  | typeError
deriving Repr, DecidableEq

/-- The mutable state of a `Live` `PhoenixChart` session: chart type, current
data, merged options, the retained packet, plus the trace of configuration
strings pushed to the engine via `updateChartJson` (to observe engine
pushes). -/
structure PhoenixChart where
  _type : PHOENIX_CHART_TYPE
  _data : PhoenixChartData
  _options : PhoenixChartOptions
  _packet : String
  _pushed : List String
deriving Repr, DecidableEq

/-- The `options?` argument of `update`: the caller may supply `colors`
and/or `properties`.  `none` in a field models both an absent key and an
explicit `null` (each is falsy under `if (options.colors)`; a supplied
array or object — even an empty one — is truthy and is modelled as `some`). -/
structure UpdateOptions where
  colors : Option (List String) := none
  properties : Option PropertyOverridesMap := none
deriving Repr, DecidableEq

/-- `update(data, options?)` from `chart.ts`.  The body dereferences
`options.colors` first, so an omitted `options` argument throws before any
session field is assigned: the state is returned unchanged with the error.
Otherwise truthy `colors`/`properties` are merged into the session options,
the data is stored and normalized, a fresh configuration string is built
from the session's type, the transformed data and the merged options, the
string is retained as the packet and pushed to the engine. -/
def PhoenixChart.update (s : PhoenixChart) (data : PhoenixChartData)
    (options : Option UpdateOptions) : PhoenixChart × Except JsErr Unit :=
  match options with
  | none => (s, .error .typeError)
  | some opts =>
    let options1 :=
      match opts.colors with
      | some colors => { s._options with colors := some colors }
      | none => s._options
    let options2 :=
      match opts.properties with
      | some properties => { options1 with properties := some properties }
      | none => options1
    let data1 : PhoenixChartData := { data with rows := normalizeRows data.rows }
    let configString := _createConfigString s._type data1 options2
    ({ s with
        _options := options2
        _data := data1
        _packet := configString
        _pushed := s._pushed ++ [configString] },
      .ok ())

/-- `setChartProperties(properties)` from `chart.ts`: store the overrides on
the session options, then call `this.update(this._data)` — with no options
argument. -/
def PhoenixChart.setChartProperties (s : PhoenixChart)
    (properties : PropertyOverridesMap) : PhoenixChart × Except JsErr Unit :=
  let s1 := { s with _options := { s._options with properties := some properties } }
  s1.update s1._data none

/-- `resetColorPalette()` from `chart.ts`: clear `options.colors` to `null`,
then call `this.update(this._data)` — with no options argument. -/
def PhoenixChart.resetColorPalette (s : PhoenixChart) : PhoenixChart × Except JsErr Unit :=
  let s1 := { s with _options := { s._options with colors := none } }
  s1.update s1._data none

/-- A small concrete dataset used to evaluate the builder on closed inputs. -/
def sampleData : PhoenixChartData :=
  { columns := [{ name := "a", type := "STRING", mapping := "ITEM" },
                { name := "b", type := "LONG", mapping := "VALUE" }]
    rows := [Row.arr [Value.str "x", Value.int 1]] }

/-- A one-column declaration used to exhibit the column/row mismatch of
normalization. -/
def mismatchColumns : List Column :=
  [{ name := "a", type := "STRING", mapping := "ITEM" }]

/-- A row list whose single keyed row binds two keys, neither declared in
`mismatchColumns`. -/
def mismatchRows : List Row :=
  [Row.obj [("x", Value.int 5), ("y", Value.int 6)]]

/-- The spec's normalization example: keyed rows over columns `a`, `b`. -/
def demoRows : List Row :=
  [Row.obj [("a", Value.int 1), ("b", Value.int 2)],
   Row.obj [("a", Value.int 3), ("b", Value.int 4)]]

/-- C1: for every chart kind and every data/options input, the configuration
document contains exactly one of `components.graph` / `components.map` — the
one matching the kind's map/graph classification — and the top-level `maps`
key is present if and only if the kind is a map kind. -/
theorem claim_C1_component_exclusivity (type : PHOENIX_CHART_TYPE)
    (data : PhoenixChartData) (options : PhoenixChartOptions) :
    ((_toPhoenixConfig type data options).components.graph).present = !(_isMap type)
    ∧ ((_toPhoenixConfig type data options).components.map).present = _isMap type
    ∧ ((_toPhoenixConfig type data options).maps).present = _isMap type := by
  obtain ⟨height, width, animate, colors, properties⟩ := options
  cases colors <;> cases type <;> exact ⟨rfl, rfl, rfl⟩

/-- C2 (counterexample): with `options.colors` bound to the empty list the
document does carry a `palette` key — the empty array is truthy under
`if (options.colors)` — contradicting the claim that an empty color list
yields no palette field. -/
theorem claim_C2_counterexample :
    ((_toPhoenixConfig PHOENIX_CHART_TYPE.BAR sampleData
        { DEFAULT_OPTIONS with colors := some [] }).palette).present = true
    ∧ (_toPhoenixConfig PHOENIX_CHART_TYPE.BAR sampleData
        { DEFAULT_OPTIONS with colors := some [] }).palette
      = JField.val { colorRanges := [{ name := "CustomPalette", values := [] }]
                     colorRules := [{ min := 1, max := 0, values := [] }] } :=
  ⟨rfl, rfl⟩

/-- C2 (amended): the `palette` key is present if and only if
`options.colors` is non-null; when `colors` is null the key is omitted
entirely, and when it is any list — including the empty list — the key is
bound to `_createPalette` of that list. -/
theorem claim_C2_palette_iff_nonnull_colors (type : PHOENIX_CHART_TYPE)
    (data : PhoenixChartData) (options : PhoenixChartOptions) :
    (_toPhoenixConfig type data options).palette
      = (match options.colors with
         | some colors => JField.val (_createPalette colors)
         | none => JField.absent) := by
  obtain ⟨height, width, animate, colors, properties⟩ := options
  cases colors <;> cases type <;> rfl

/-- C3 (code bug): `resetColorPalette()` does clear `options.colors` to null,
but the nested `update(this._data)` call omits the options argument, which
`update` dereferences unconditionally — so the call throws instead of
completing, and the retained packet, data, and engine-push trace are left
unchanged. -/
theorem claim_C3_resetColorPalette_throws (s : PhoenixChart) :
    s.resetColorPalette
      = ({ s with _options := { s._options with colors := none } },
          Except.error JsErr.typeError) := rfl

/-- C4 (counterexample): normalizing a keyed row with undeclared keys `x`,
`y` over the single declared column `a` keeps both undeclared values and
yields a row of length 2 ≠ `columns.length`, contradicting the claim that
output rows match the declared columns. -/
theorem claim_C4_counterexample :
    normalizeRows mismatchRows = [Row.arr [Value.int 5, Value.int 6]]
    ∧ ¬ ((Row.arr [Value.int 5, Value.int 6]).ownValues.length
          = mismatchColumns.length) :=
  ⟨rfl, by decide⟩

/-- C4 (amended): when the first row is a keyed mapping, every output row is
the ordered sequence of that row's own values in the row's own key order;
its length equals the number of that row's own keys — the declared columns
are never consulted, undeclared keys are kept, and declared-but-missing
columns are not filled. -/
theorem claim_C4_rows_follow_own_keys (kvs : List (String × Value)) (rest : List Row) :
    normalizeRows (Row.obj kvs :: rest)
      = Row.arr (kvs.map Prod.snd) :: rest.map (fun r => Row.arr r.ownValues)
    ∧ (kvs.map Prod.snd).length = kvs.length := by
  constructor
  · rw [show normalizeRows (Row.obj kvs :: rest)
        = transformData (Row.obj kvs :: rest) from rfl,
      transformData_eq_map_ownValues, List.map_cons]
    rfl
  · exact List.length_map _ _

/-- C5: for every non-empty row list whose first row is a keyed mapping,
normalization maps every row to the ordered sequence of that row's own
enumerable values in the row's own key-insertion order — not reordered to
match the declared columns. -/
theorem claim_C5_own_key_order (rows : List Row) (kvs : List (String × Value))
    (h : rows.head? = some (Row.obj kvs)) :
    normalizeRows rows = rows.map fun r => Row.arr r.ownValues := by
  cases rows with
  | nil => simp at h
  | cons r rest =>
    have hr : r = Row.obj kvs := by simpa using h
    subst hr
    rw [show normalizeRows (Row.obj kvs :: rest)
        = transformData (Row.obj kvs :: rest) from rfl,
      transformData_eq_map_ownValues]

/-- C5 (witness): the spec's example — keyed rows `a:1,b:2` and `a:3,b:4`
normalize to `[[1,2],[3,4]]`. -/
theorem claim_C5_witness :
    normalizeRows demoRows
      = [Row.arr [Value.int 1, Value.int 2], Row.arr [Value.int 3, Value.int 4]] :=
  (claim_C5_own_key_order demoRows [("a", Value.int 1), ("b", Value.int 2)]
      rfl).trans (by decide)

/-- C6: for every non-empty color list, `colorRanges[0].values` of the built
palette is the input list in the same order and length, each entry the input
color with its leading marker character removed. -/
theorem claim_C6_range_values (colors : List String) (h : colors ≠ []) :
    (_createPalette colors).colorRanges.map ColorRange.values
      = [colors.map fun color => color.drop 1]
    ∧ (colors.map fun color => color.drop 1).length = colors.length
    ∧ ∀ i, (hi : i < colors.length) →
        (colors.map fun color => color.drop 1).get ⟨i, by simpa using hi⟩
          = (colors.get ⟨i, hi⟩).drop 1 := by
  refine ⟨rfl, List.length_map _ _, fun i hi => ?_⟩
  simp [List.getElem_map]

/-- C6 (witness): two concrete colors lose their `#` and keep their order. -/
theorem claim_C6_witness :
    (_createPalette ["#ff0000", "#00ff00"]).colorRanges.map ColorRange.values
      = [["ff0000", "00ff00"]] :=
  ((claim_C6_range_values ["#ff0000", "#00ff00"] (by decide)).1).trans (by decide)

/-- C7: for every non-empty color list, `colorRules` of the built palette is
the single rule with `min = 1`, `max` the number of colors, and `values` the
ordered pairs `[0, index]` for `index` from `0` to `|C| - 1`. -/
theorem claim_C7_color_rule (colors : List String) (h : colors ≠ []) :
    (_createPalette colors).colorRules
      = [{ min := 1
           max := (colors.length : Int)
           values := (List.range colors.length).map
             fun (index : Nat) => [(0 : Int), (index : Int)] }] := by
  have hidx := mapIdx_const_arg (fun index => [(0 : Int), (index : Int)]) colors
  simp only [_createPalette, hidx]

/-- C7 (witness): two concrete colors yield the rule
`min 1, max 2, values [[0,0],[0,1]]`. -/
theorem claim_C7_witness :
    (_createPalette ["#ff0000", "#00ff00"]).colorRules
      = [{ min := 1, max := 2, values := [[0, 0], [0, 1]] }] :=
  (claim_C7_color_rule ["#ff0000", "#00ff00"] (by decide)).trans (by decide)

/-- C8: whenever the first row is already an ordered sequence, normalization
returns the entire input unchanged — later rows are not inspected or
converted, keyed mappings among them included. -/
theorem claim_C8_first_row_array_noop (cells : List Value) (rest : List Row) :
    normalizeRows (Row.arr cells :: rest) = Row.arr cells :: rest := rfl

/-- C9: two consecutive `update` calls with identical data and identical
options retain byte-identical packets: the serialized configuration string
after the second call equals the one after the first. -/
theorem claim_C9_update_idempotent (s : PhoenixChart) (data : PhoenixChartData)
    (opts : UpdateOptions) :
    ((s.update data (some opts)).1.update data (some opts)).1._packet
      = (s.update data (some opts)).1._packet := by
  obtain ⟨colors, properties⟩ := opts
  cases colors <;> cases properties <;> rfl

/-- C10: `update` invoked without an options argument — as the internal
calls from `setChartProperties` and `resetColorPalette` do — throws before
assigning any session state: the state (data, packet, colors, engine-push
trace) is returned exactly as it was, and `setChartProperties` itself only
gets as far as storing the overrides before the nested call throws. -/
theorem claim_C10_update_without_options_throws (s : PhoenixChart)
    (data : PhoenixChartData) (properties : PropertyOverridesMap) :
    s.update data none = (s, Except.error JsErr.typeError)
    ∧ s.setChartProperties properties
      = ({ s with _options := { s._options with properties := some properties } },
          Except.error JsErr.typeError) :=
  ⟨rfl, rfl⟩
